import Mathlib

/-
Verification of the traffic-stop cleaning pipeline (`src/clean_data.py`).

The script is a linear pandas ETL: load per-city CSVs, normalize column
values, coerce boolean-semantic columns, drop columns by overall
missingness, derive `outcome_missing` and `arrested`, and project onto a
fixed column allow-list.  All transformations are element-wise on rows or
whole-column operations, so the pipeline is embedded as pure functions on
lists of records.

Modelling conventions:
- A raw CSV cell is `Option String`; `none` is pandas `NaN` for a missing
  cell.  `pyStr` models `.astype(str)` (pandas renders `NaN` as `"nan"`).
- Python `str.strip` / `lower` / `upper` / `title` are modelled on the
  ASCII data actually present; they are implemented by structural
  recursion over the character list (`strTrim`, `strLower`, `strUpper`,
  `pyTitle`) so that every definition evaluates.
- Machine floats only appear as `isnull().mean().round(4) * 100 > 50`;
  that comparison is modelled in exact integer arithmetic with an
  explicit round-half-to-even to four decimal places (`numpy` rounding),
  which agrees with the float computation at the magnitudes involved.
- A pandas `KeyError` (column accessed after being dropped) is modelled by
  the pipeline returning `none`.
-/

set_option autoImplicit false

/-- Digit value of an ASCII digit character, as in `int(c)` on one char. -/
def digVal (c : Char) : Nat := c.toNat - 48

/-- Two-character zero-padded decimal rendering, as in Python `"%02d"`
(which is how `str(datetime.time(...))` renders each component). -/
def pad2 (n : Nat) : List Char := [Nat.digitChar (n / 10), Nat.digitChar (n % 10)]

/-- Split a character list on a separator character, keeping empty groups,
like Python `str.split(sep)`. -/
def splitOnChar (sep : Char) : List Char → List (List Char)
  | [] => [[]]
  | c :: rest =>
    if c = sep then [] :: splitOnChar sep rest
    else
      match splitOnChar sep rest with
      | [] => [[c]]
      | g :: gs => (c :: g) :: gs

/-- Value of a nonempty all-digit character group. -/
def digitsVal (l : List Char) : Option Nat :=
  if l ≠ [] ∧ l.all Char.isDigit then
    some (l.foldl (fun a c => 10 * a + digVal c) 0)
  else none

/-- Parse a 1-2 digit field, as `strptime` does for `%H`, `%M`, `%S`,
`%m`, `%d`. -/
def parse12 (l : List Char) : Option Nat :=
  if 1 ≤ l.length ∧ l.length ≤ 2 then digitsVal l else none

/-- Parse a 4-digit field, as `strptime` does for `%Y`. -/
def parse4 (l : List Char) : Option Nat :=
  if l.length = 4 then digitsVal l else none

/-- Model of Python `str(cell)` applied by `.astype(str)`: pandas renders a
missing cell (`NaN`) as the literal string `"nan"`. -/
def pyStr : Option String → String
  | none => "nan"
  | some s => s

/-- Python `str.lower` on the ASCII data (character-wise). -/
def strLower (s : String) : String := String.mk (s.toList.map Char.toLower)

/-- Python `str.upper` on the ASCII data (character-wise). -/
def strUpper (s : String) : String := String.mk (s.toList.map Char.toUpper)

/-- The ASCII whitespace characters stripped by Python `str.strip`. -/
def isPyWS (c : Char) : Bool :=
  c == ' ' || c == '\t' || c == '\n' || c == '\r' || c == '\x0b' || c == '\x0c'

/-- Python `str.strip`: drop leading and trailing whitespace. -/
def strTrim (s : String) : String :=
  String.mk (((s.toList.dropWhile isPyWS).reverse.dropWhile isPyWS).reverse)

/-- Python `str.title` on ASCII text: an alphabetic character is
uppercased when the previous character is not alphabetic, lowercased
otherwise (state-passing over the character list). -/
def pyTitleGo : Bool → List Char → List Char
  | _, [] => []
  | prev, c :: cs =>
    (if c.isAlpha then (if prev then c.toLower else c.toUpper) else c)
      :: pyTitleGo c.isAlpha cs

/-- Python `str.title` (ASCII). -/
def pyTitle (s : String) : String := String.mk (pyTitleGo false s.toList)

/-- Does the character list start with the pattern? -/
def startsWithChars : List Char → List Char → Bool
  | [], _ => true
  | _ :: _, [] => false
  | p :: ps, c :: cs => p == c && startsWithChars ps cs

/-- Substring test on character lists. -/
def hasSubChars (pat : List Char) : List Char → Bool
  | [] => startsWithChars pat []
  | c :: cs => startsWithChars pat (c :: cs) || hasSubChars pat cs

/-- Model of `pandas.Series.str.contains(pat, case=False)` on one cell:
case-insensitive substring test. -/
def strContainsCI (s pat : String) : Bool :=
  hasSubChars (strLower pat).toList (strLower s).toList

/-- Exact-key lookup in an ordered key-value list, as Python `dict`
lookup used by `pandas.Series.map`. -/
def mapLookup {α : Type} : List (String × α) → String → Option α
  | [], _ => none
  | p :: rest, k => if p.1 = k then some p.2 else mapLookup rest k

/-- A parsed time-of-day value (`datetime.time`). -/
structure TimeT where
  hour : Nat
  min : Nat
  sec : Nat
deriving DecidableEq

/-- A parsed calendar date (`pandas.Timestamp`, date part). -/
structure DateT where
  year : Nat
  month : Nat
  day : Nat
deriving DecidableEq

/-- Gregorian leap-year test. -/
def isLeap (y : Nat) : Bool := (y % 4 == 0 && y % 100 != 0) || y % 400 == 0

/-- Days in a month of a given year. -/
def daysInMonth (y m : Nat) : Nat :=
  [31, if isLeap y then 29 else 28, 31, 30, 31, 30, 31, 31, 30, 31, 30, 31].getD (m - 1) 0

/-- Strict parse of a `HH:MM:SS` string, as
`pd.to_datetime(s, format="%H:%M:%S", errors="coerce")` (line 51): three
colon-separated 1-2 digit fields with hour < 24, minute < 60, second < 60;
anything else coerces to `NaT`, i.e. `none`. -/
def parseTimeHMS (s : String) : Option TimeT :=
  match splitOnChar ':' s.toList with
  | [hh, mm, ss] =>
    match parse12 hh, parse12 mm, parse12 ss with
    | some h, some m, some s2 =>
      if h < 24 ∧ m < 60 ∧ s2 < 60 then some ⟨h, m, s2⟩ else none
    | _, _, _ => none
  | _ => none

/-- Parse of the `date` column (line 50): models the ISO `YYYY-MM-DD`
path of `pd.to_datetime(col, errors="coerce")`, the format of the SOPP
extracts; an unparsable value coerces to `NaT`, i.e. `none`. -/
def parseDateISO (s : String) : Option DateT :=
  match splitOnChar '-' s.toList with
  | [ys, ms, ds] =>
    match parse4 ys, parse12 ms, parse12 ds with
    | some y, some m, some d =>
      if 1 ≤ m ∧ m ≤ 12 ∧ 1 ≤ d ∧ d ≤ daysInMonth y m then some ⟨y, m, d⟩ else none
    | _, _, _ => none
  | _ => none

/-- The `date` cell after `pd.to_datetime(..., errors="coerce")`: a
missing cell is `NaT`, an unparsable string is `NaT`. -/
def parseDateCell (cell : Option String) : Option DateT := cell.bind parseDateISO

/-- The `time` cell after
`pd.to_datetime(..., format="%H:%M:%S", errors="coerce").dt.time`. -/
def parseTimeCell (cell : Option String) : Option TimeT :=
  cell.bind parseTimeHMS

/-- Render of a time cell by `.astype(str)` (line 57): `str(pd.NaT)` is
`"NaT"`, `str(datetime.time(h, m, s))` is zero-padded `HH:MM:SS`. -/
def strOfTimeCell : Option TimeT → String
  | none => "NaT"
  | some t => String.mk (pad2 t.hour ++ ':' :: (pad2 t.min ++ ':' :: pad2 t.sec))

/-- The `hour` column (lines 56-58): the parsed `time` column is rendered
back to strings, reparsed with `%H:%M:%S` (coercing failures, in
particular `"NaT"`), and the hour component is taken. -/
def hourFromTime (t : Option TimeT) : Option Nat :=
  (parseTimeHMS (strOfTimeCell t)).map TimeT.hour

/-- Sakamoto weekday table. -/
def sakTable : List Int := [0, 3, 2, 5, 0, 3, 5, 1, 4, 6, 2, 4]

/-- Full English weekday names indexed Sunday-first (Sakamoto index). -/
def weekNames : List String :=
  ["Sunday", "Monday", "Tuesday", "Wednesday", "Thursday", "Friday", "Saturday"]

/-- Weekday name of a date, as `Series.dt.day_name()` (line 55), via
Sakamoto's congruence (valid for the CE years in the data). -/
def dayNameOf (dt : DateT) : String :=
  let y : Int := if dt.month < 3 then (dt.year : Int) - 1 else (dt.year : Int)
  let idx : Int :=
    (y + y / 4 - y / 100 + y / 400 + sakTable.getD (dt.month - 1) 0 + (dt.day : Int)) % 7
  weekNames.getD idx.toNat ""

/-- The `race_map` dict of lines 64-75, in source order. -/
def race_map : List (String × String) :=
  [("white", "white"),
   ("black", "black"),
   ("hispanic", "hispanic"),
   ("asian/pacific islander", "asian/pacific islander"),
   ("asian", "asian/pacific islander"),
   ("pacific islander", "asian/pacific islander"),
   ("other", "other"),
   ("unknown", "unknown"),
   ("other/unknown", "unknown"),
   ("na", "unknown")]

/-- The `sex_map` dict of lines 86-93, in source order. -/
def sex_map : List (String × String) :=
  [("male", "male"),
   ("female", "female"),
   ("m", "male"),
   ("f", "female"),
   ("na", "unknown"),
   ("nan", "unknown")]

/-- The TRUE/FALSE dict of line 134. -/
def bool_map : List (String × Bool) := [("TRUE", true), ("FALSE", false)]

/-- Normalization of one `subject_race` cell (lines 76-83):
`.astype(str).str.strip().str.lower().map(race_map).fillna("unknown")`. -/
def normRace (cell : Option String) : String :=
  (mapLookup race_map (strLower (strTrim (pyStr cell)))).getD "unknown"

/-- Normalization of one `subject_sex` cell (lines 94-101):
`.astype(str).str.strip().str.lower().map(sex_map).fillna("unknown")`. -/
def normSex (cell : Option String) : String :=
  (mapLookup sex_map (strLower (strTrim (pyStr cell)))).getD "unknown"

/-- Normalization of one `reason_for_stop` cell (lines 104-112):
`.astype(str).str.strip().str.title()`, then the literal results `"Nan"`,
`"Na"`, `""` are rewritten to `"Unknown"`. -/
def normReason (cell : Option String) : String :=
  let t := pyTitle (strTrim (pyStr cell))
  if t = "Nan" ∨ t = "Na" ∨ t = "" then "Unknown" else t

/-- Normalization of one `outcome` cell (lines 115-120):
`.astype(str).str.strip().str.lower()`. -/
def normOutcome (cell : Option String) : String := strLower (strTrim (pyStr cell))

/-- Coercion of one boolean-semantic cell (lines 128-135):
`.astype(str).str.strip().str.upper().map({"TRUE": True, "FALSE": False})`;
a non-key token becomes `NaN`, i.e. `none`. -/
def coerceBool (cell : Option String) : Option Bool :=
  mapLookup bool_map (strUpper (strTrim (pyStr cell)))

/-- One raw input row, with the cells the pipeline touches; `none` is a
missing CSV cell. -/
structure RawRow where
  date : Option String
  time : Option String
  subject_age : Option String
  subject_race : Option String
  subject_sex : Option String
  reason_for_stop : Option String
  outcome : Option String
  arrest_made : Option String
  citation_issued : Option String
  warning_issued : Option String
  contraband_found : Option String
  contraband_drugs : Option String
  contraband_weapons : Option String
  frisk_performed : Option String
  search_conducted : Option String
  search_person : Option String
  search_vehicle : Option String
deriving DecidableEq

/-- One row of the working table after steps 2-4 (rename, temporal
features, categorical normalization, boolean coercion), just before the
missingness analysis of step 5. -/
structure CleanRow where
  city : String
  date : Option DateT
  time : Option TimeT
  subject_age : Option String
  subject_race : String
  subject_sex : String
  reason_for_stop : String
  outcome : String
  arrest_made : Option Bool
  citation_issued : Option Bool
  warning_issued : Option Bool
  contraband_found : Option Bool
  contraband_drugs : Option Bool
  contraband_weapons : Option Bool
  frisk_performed : Option Bool
  search_conducted : Option Bool
  search_person : Option Bool
  search_vehicle : Option Bool
  year : Option Nat
  month : Option Nat
  day_of_week : Option String
  hour : Option Nat
deriving DecidableEq

/-- Element-wise normalization of one tagged row: steps 3 and 4 of the
script are all per-cell `Series` operations, applied here per row. -/
def normalizeRow (city : String) (r : RawRow) : CleanRow :=
  let d := parseDateCell r.date
  let t := parseTimeCell r.time
  ⟨city, d, t, r.subject_age,
   normRace r.subject_race, normSex r.subject_sex,
   normReason r.reason_for_stop, normOutcome r.outcome,
   coerceBool r.arrest_made, coerceBool r.citation_issued,
   coerceBool r.warning_issued, coerceBool r.contraband_found,
   coerceBool r.contraband_drugs, coerceBool r.contraband_weapons,
   coerceBool r.frisk_performed, coerceBool r.search_conducted,
   coerceBool r.search_person, coerceBool r.search_vehicle,
   d.map DateT.year, d.map DateT.month, d.map dayNameOf,
   hourFromTime t⟩

/-- The columns of the working table. -/
inductive Col where
  | date | time | subject_age | subject_race | subject_sex
  | reason_for_stop | outcome
  | arrest_made | citation_issued | warning_issued
  | contraband_found | contraband_drugs | contraband_weapons
  | frisk_performed | search_conducted | search_person | search_vehicle
  | city | year | month | day_of_week | hour
  | outcome_missing | arrested
deriving DecidableEq, Fintype

/-- The columns present at the missingness analysis of step 5 (the two
derived columns `outcome_missing` and `arrested` do not exist yet). -/
def analysisCols : List Col :=
  [.date, .time, .subject_age, .subject_race, .subject_sex,
   .reason_for_stop, .outcome,
   .arrest_made, .citation_issued, .warning_issued,
   .contraband_found, .contraband_drugs, .contraband_weapons,
   .frisk_performed, .search_conducted, .search_person, .search_vehicle,
   .city, .year, .month, .day_of_week, .hour]

/-- Model of `pd.isna` on a cell of an object column whose values are all
Python `str` (the state of the four text columns after `.astype(str)`):
it is `False` for every cell. -/
def strIsNA (_ : String) : Bool := false

/-- Model of `raw_combined.isnull()` at one cell of the working table
(step 5 state): `NaT`/`NaN` in the option-valued columns, never in the
string columns or `city`. -/
def isNullAt (c : Col) (r : CleanRow) : Bool :=
  match c with
  | .date => r.date.isNone
  | .time => r.time.isNone
  | .subject_age => r.subject_age.isNone
  | .subject_race => strIsNA r.subject_race
  | .subject_sex => strIsNA r.subject_sex
  | .reason_for_stop => strIsNA r.reason_for_stop
  | .outcome => strIsNA r.outcome
  | .arrest_made => r.arrest_made.isNone
  | .citation_issued => r.citation_issued.isNone
  | .warning_issued => r.warning_issued.isNone
  | .contraband_found => r.contraband_found.isNone
  | .contraband_drugs => r.contraband_drugs.isNone
  | .contraband_weapons => r.contraband_weapons.isNone
  | .frisk_performed => r.frisk_performed.isNone
  | .search_conducted => r.search_conducted.isNone
  | .search_person => r.search_person.isNone
  | .search_vehicle => r.search_vehicle.isNone
  | .city => false
  | .year => r.year.isNone
  | .month => r.month.isNone
  | .day_of_week => r.day_of_week.isNone
  | .hour => r.hour.isNone
  | .outcome_missing => false
  | .arrested => false

/-- Number of missing cells of a column, `raw_combined[c].isnull().sum()`. -/
def missCount (rows : List CleanRow) (c : Col) : Nat :=
  rows.countP (isNullAt c)

/-- Round-half-to-even (`numpy` rounding) of `10000 * (m / n)` for a
denominator `n > 0`, in exact integer arithmetic: the integer part is
`10000 * m / n` and the remainder is compared against half of `n`. -/
def rheN (m n : Nat) : Nat :=
  let a := 10000 * m
  let q := a / n
  let r := a % n
  if 2 * r < n then q
  else if n < 2 * r then q + 1
  else if q % 2 = 0 then q else q + 1

/-- The drop test of lines 151-154 applied to one column:
`overall_miss[c] > 50` with `overall_miss = isnull().mean().round(4) * 100`.
In exact arithmetic, `round4(m / n) * 100 > 50` holds iff the half-even
rounding of `10000 * m / n` exceeds `5000`, which `rheN` computes.  On an
empty table pandas yields `mean = NaN` and `NaN > 50` is false, so the
empty case is explicitly false. -/
def dropCondition (rows : List CleanRow) (c : Col) : Bool :=
  if rows.length = 0 then false
  else rheN (missCount rows c) rows.length > 5000

/-- The `cols_to_drop` list (line 154): analysis columns whose
`overall_miss` exceeds 50. -/
def cols_to_drop (rows : List CleanRow) : List Col :=
  analysisCols.filter (fun c => dropCondition rows c)

/-- The working table's column list after `drop(columns=cols_to_drop)`
(line 157). -/
def presentAfterDrop (rows : List CleanRow) : List Col :=
  analysisCols.filter (fun c => decide (c ∉ cols_to_drop rows))

/-- The `outcome_missing` flag of line 160:
`outcome.isin(["nan", "na", ""]) | outcome.isna()`. -/
def outcomeMissingOf (o : String) : Bool :=
  decide (o ∈ (["nan", "na", ""] : List String)) || strIsNA o

/-- The `arrested` indicator of lines 169-174: nested `np.where`, read
element-wise. -/
def arrestedOf (r : CleanRow) : Nat :=
  if r.arrest_made = some true then 1
  else if strContainsCI r.outcome "arrest" then 1 else 0

/-- A row of the working table after step 6, with the two derived
columns appended. -/
structure FinalRow extends CleanRow where
  outcome_missing : Bool
  arrested : Nat
deriving DecidableEq

/-- Element-wise derivation step (lines 160 and 169-174). -/
def deriveRow (r : CleanRow) : FinalRow :=
  ⟨r, outcomeMissingOf r.outcome, arrestedOf r⟩

/-- The `keep_cols` allow-list of lines 180-188, in source order. -/
def keep_cols : List Col :=
  [.date, .time, .city, .subject_race, .subject_sex, .subject_age,
   .reason_for_stop, .outcome, .search_conducted, .contraband_found,
   .arrested, .year, .month, .day_of_week, .hour, .outcome_missing]

/-- The final table: its column list and its rows. -/
structure FinalTable where
  cols : List Col
  rows : List FinalRow
deriving DecidableEq

/-- Step 1, the loader: tag every row of every per-city frame with its
city and concatenate, preserving order (`pd.concat`, line 37). -/
def loadCombine (inputs : List (String × List RawRow)) : List (String × RawRow) :=
  inputs.flatMap (fun p => p.2.map (fun r => (p.1, r)))

/-- The combined working table after steps 1-4. -/
def normRows (inputs : List (String × List RawRow)) : List CleanRow :=
  (loadCombine inputs).map (fun cr => normalizeRow cr.1 cr.2)

/-- The whole pipeline, from the per-city raw frames to the final table
(`cleaned`, line 192).  Column lookups performed after the drop step
(lines 160 and 169-174 index `outcome` and `arrest_made`) raise
`KeyError` when the column was dropped; that abort is modelled as
`none`. -/
def runPipeline (inputs : List (String × List RawRow)) : Option FinalTable :=
  let rows := normRows inputs
  let present := presentAfterDrop rows
  if Col.outcome ∈ present then
    if Col.arrest_made ∈ present then
      let finalRows := rows.map deriveRow
      let presentF := present ++ [Col.outcome_missing, Col.arrested]
      some ⟨keep_cols.filter (fun c => decide (c ∈ presentF)), finalRows⟩
    else none
  else none

/-- A fully populated raw row, parseable in every column. -/
def rawFull : RawRow :=
  ⟨some "2015-03-04", some "10:20:30", some "33", some "White", some "M",
   some "Speeding", some "citation", some "FALSE", some "TRUE", some "FALSE",
   some "FALSE", some "FALSE", some "FALSE", some "FALSE", some "FALSE",
   some "FALSE", some "FALSE"⟩

/-- A raw row whose `subject_age` cell is missing. -/
def rawNoAge : RawRow := { rawFull with subject_age := none }

/-- A raw row whose `arrest_made` cell is missing. -/
def rawNoArrest : RawRow := { rawFull with arrest_made := none }

/-- A raw row with an unknown `arrest_made` token and an arrest-bearing
outcome text. -/
def rawArrNA : RawRow :=
  { rawFull with arrest_made := some "NA", outcome := some "Arrest - Felony" }

/-- The normalized form of `rawNoAge` tagged with Charlotte. -/
def cA3 : CleanRow := normalizeRow "Charlotte" rawNoAge

/-- The normalized form of `rawFull` tagged with Charlotte. -/
def cB3 : CleanRow := normalizeRow "Charlotte" rawFull

/-- A single-city input of 10001 rows, 5001 of which are missing
`subject_age`: the missing fraction is 5001/10001, strictly above one
half but rounding to exactly 50.00 percent. -/
def rowsNA3 : List RawRow := List.replicate 5001 rawNoAge ++ List.replicate 5000 rawFull

/-- The boundary input for the drop-threshold claim. -/
def inp3 : List (String × List RawRow) := [("Charlotte", rowsNA3)]

/-- A two-city input with three rows in total. -/
def inp8 : List (String × List RawRow) :=
  [("Durham", [rawFull]), ("Raleigh", [rawFull, rawNoAge])]

/-- The pipeline output on `inp8`. -/
def out8 : FinalTable := (runPipeline inp8).getD ⟨[], []⟩

/-- A one-row input whose `arrest_made` column is 100 percent missing. -/
def inp10 : List (String × List RawRow) := [("Durham", [rawNoArrest])]

/-- A one-row input whose `subject_age` column is 100 percent missing. -/
def inpW3 : List (String × List RawRow) := [("Durham", [rawNoAge])]

/-- The pipeline output on `inpW3`. -/
def outW3 : FinalTable := (runPipeline inpW3).getD ⟨[], []⟩

/-- The first derived row of the `inp8` run. -/
def fr0 : FinalRow := deriveRow (normalizeRow "Durham" rawFull)

/-! Helper lemmas. -/

theorem splitOnChar_no_sep (sep : Char) (xs : List Char) (h : ∀ c ∈ xs, c ≠ sep) :
    splitOnChar sep xs = [xs] := by
  induction xs with
  | nil => rfl
  | cons c cs ih =>
    have hc : c ≠ sep := h c (by simp)
    have ih2 := ih (fun x hx => h x (by simp [hx]))
    simp only [splitOnChar, if_neg hc, ih2]

theorem splitOnChar_append (sep : Char) (xs ys : List Char) (h : ∀ c ∈ xs, c ≠ sep) :
    splitOnChar sep (xs ++ sep :: ys) = xs :: splitOnChar sep ys := by
  induction xs with
  | nil => simp [splitOnChar]
  | cons c cs ih =>
    have hc : c ≠ sep := h c (by simp)
    have ih2 := ih (fun x hx => h x (by simp [hx]))
    simp only [List.cons_append, splitOnChar, if_neg hc, List.append_eq, ih2]

theorem digitChar_props :
    ∀ d, d < 10 → (Nat.digitChar d).isDigit = true ∧ digVal (Nat.digitChar d) = d ∧
      Nat.digitChar d ≠ ':' ∧ Nat.digitChar d ≠ '-' := by decide

theorem pad2_no_colon (n : Nat) (h : n < 100) : ∀ c ∈ pad2 n, c ≠ ':' := by
  intro c hc
  have h1 : n / 10 < 10 := by omega
  have h2 : n % 10 < 10 := by omega
  simp only [pad2, List.mem_cons, List.not_mem_nil, or_false] at hc
  rcases hc with rfl | rfl
  · exact (digitChar_props _ h1).2.2.1
  · exact (digitChar_props _ h2).2.2.1

theorem digitsVal_pad2 (n : Nat) (h : n < 100) : digitsVal (pad2 n) = some n := by
  have h1 : n / 10 < 10 := by omega
  have h2 : n % 10 < 10 := by omega
  obtain ⟨d1, v1, -⟩ := digitChar_props _ h1
  obtain ⟨d2, v2, -⟩ := digitChar_props _ h2
  simp [digitsVal, pad2, d1, d2, v1, v2]
  omega

theorem parse12_pad2 (n : Nat) (h : n < 100) : parse12 (pad2 n) = some n := by
  have hl : (pad2 n).length = 2 := rfl
  simp only [parse12, hl]
  norm_num
  exact digitsVal_pad2 n h

theorem parseTimeHMS_roundtrip (t : TimeT) (h1 : t.hour < 24) (h2 : t.min < 60)
    (h3 : t.sec < 60) : parseTimeHMS (strOfTimeCell (some t)) = some t := by
  have hlist : (strOfTimeCell (some t)).toList =
      pad2 t.hour ++ ':' :: (pad2 t.min ++ ':' :: pad2 t.sec) := rfl
  rw [parseTimeHMS, hlist,
    splitOnChar_append ':' _ _ (pad2_no_colon _ (by omega)),
    splitOnChar_append ':' _ _ (pad2_no_colon _ (by omega)),
    splitOnChar_no_sep ':' _ (pad2_no_colon _ (by omega))]
  simp only [parse12_pad2 t.hour (by omega), parse12_pad2 t.min (by omega),
    parse12_pad2 t.sec (by omega)]
  simp [h1, h2, h3]

theorem parseTimeHMS_bounds (s : String) (t : TimeT) (hp : parseTimeHMS s = some t) :
    t.hour < 24 ∧ t.min < 60 ∧ t.sec < 60 := by
  unfold parseTimeHMS at hp
  repeat' split at hp
  all_goals (try (cases hp))
  all_goals simp_all

theorem mapLookup_mem {α : Type} (m : List (String × α)) (k : String) (v : α)
    (h : mapLookup m k = some v) : v ∈ m.map Prod.snd := by
  induction m with
  | nil => simp [mapLookup] at h
  | cons p rest ih =>
    simp only [mapLookup] at h
    split_ifs at h with hk
    · simp only [Option.some.injEq] at h
      simp [← h]
    · simp [ih h]

theorem countP_replicate_eq {α : Type} (p : α → Bool) (n : Nat) (a : α) :
    (List.replicate n a).countP p = if p a then n else 0 := by
  induction n with
  | zero => simp
  | succ k ih =>
    rw [List.replicate_succ, List.countP_cons, ih]
    by_cases hp : p a <;> simp [hp]

theorem loadCombine_length (inputs : List (String × List RawRow)) :
    (loadCombine inputs).length = (inputs.map (fun p => p.2.length)).sum := by
  induction inputs with
  | nil => rfl
  | cons p rest ih =>
    have hsplit : loadCombine (p :: rest) =
        p.2.map (fun r => (p.1, r)) ++ loadCombine rest := rfl
    rw [hsplit, List.length_append, List.length_map, ih]
    simp

theorem rheN_zero (n : Nat) (_hn : n ≠ 0) : rheN 0 n = 0 := by
  unfold rheN
  simp

theorem dropCondition_false_of_no_miss (rows : List CleanRow) (c : Col)
    (h : ∀ r ∈ rows, isNullAt c r = false) : dropCondition rows c = false := by
  have hc : missCount rows c = 0 := by
    rw [missCount, List.countP_eq_zero]
    intro a ha
    simp [h a ha]
  rw [dropCondition, hc]
  by_cases hl : rows.length = 0
  · simp [hl]
  · simp [hl, rheN_zero _ hl]

theorem mem_cols_to_drop (rows : List CleanRow) (c : Col) :
    c ∈ cols_to_drop rows ↔ c ∈ analysisCols ∧ dropCondition rows c = true := by
  rw [cols_to_drop, List.mem_filter]

theorem mem_presentAfterDrop (rows : List CleanRow) (c : Col) :
    c ∈ presentAfterDrop rows ↔ c ∈ analysisCols ∧ c ∉ cols_to_drop rows := by
  rw [presentAfterDrop, List.mem_filter]
  simp

/-! Claim theorems. -/

/-- C1: The derived `arrested` field is computed by an ordered two-rule,
first-match-wins policy: a post-coercion `arrest_made` of true gives 1;
otherwise an outcome containing the substring "arrest" case-insensitively
gives 1; otherwise 0.  An unknown/missing `arrest_made` does not yield 1
by rule one but falls through to the outcome-substring check. -/
theorem arrested_two_rule_policy (r : CleanRow) :
    (r.arrest_made = some true → arrestedOf r = 1) ∧
    (r.arrest_made ≠ some true → strContainsCI r.outcome "arrest" = true →
      arrestedOf r = 1) ∧
    (r.arrest_made ≠ some true → strContainsCI r.outcome "arrest" = false →
      arrestedOf r = 0) ∧
    (r.arrest_made = none →
      arrestedOf r = if strContainsCI r.outcome "arrest" then 1 else 0) ∧
    (deriveRow r).arrested = arrestedOf r := by
  refine ⟨fun h => ?_, fun h hc => ?_, fun h hc => ?_, fun h => ?_, rfl⟩
  · simp [arrestedOf, h]
  · simp [arrestedOf, h, hc]
  · simp [arrestedOf, h, hc]
  · have hne : r.arrest_made ≠ some true := by simp [h]
    simp [arrestedOf, hne]

/-- Witness for C1: an unknown `arrest_made` with an arrest-bearing
outcome derives 1, and a false `arrest_made` with a citation outcome
derives 0. -/
theorem arrested_two_rule_policy_witness :
    arrestedOf (normalizeRow "Durham" rawArrNA) = 1 ∧
    arrestedOf (normalizeRow "Durham" rawFull) = 0 :=
  ⟨(arrested_two_rule_policy (normalizeRow "Durham" rawArrNA)).2.1
      (by decide) (by decide),
   (arrested_two_rule_policy (normalizeRow "Durham" rawFull)).2.2.1
      (by decide) (by decide)⟩

/-- C2: For every boolean-semantic column and every input cell, the
coerced value is true iff the trimmed uppercased text equals "TRUE",
false iff it equals "FALSE", and every other token (including "NA",
empty, or an already-missing cell) coerces to the explicit missing state,
never to false. -/
theorem bool_coercion_tri_state (cell : Option String) :
    (coerceBool cell = some true ↔ strUpper (strTrim (pyStr cell)) = "TRUE") ∧
    (coerceBool cell = some false ↔ strUpper (strTrim (pyStr cell)) = "FALSE") ∧
    (strUpper (strTrim (pyStr cell)) ≠ "TRUE" →
      strUpper (strTrim (pyStr cell)) ≠ "FALSE" → coerceBool cell = none) ∧
    (∀ (city : String) (r : RawRow),
      (normalizeRow city r).arrest_made = coerceBool r.arrest_made ∧
      (normalizeRow city r).citation_issued = coerceBool r.citation_issued ∧
      (normalizeRow city r).warning_issued = coerceBool r.warning_issued ∧
      (normalizeRow city r).contraband_found = coerceBool r.contraband_found ∧
      (normalizeRow city r).contraband_drugs = coerceBool r.contraband_drugs ∧
      (normalizeRow city r).contraband_weapons = coerceBool r.contraband_weapons ∧
      (normalizeRow city r).frisk_performed = coerceBool r.frisk_performed ∧
      (normalizeRow city r).search_conducted = coerceBool r.search_conducted ∧
      (normalizeRow city r).search_person = coerceBool r.search_person ∧
      (normalizeRow city r).search_vehicle = coerceBool r.search_vehicle) := by
  have hb : coerceBool cell =
      if "TRUE" = strUpper (strTrim (pyStr cell)) then some true
      else if "FALSE" = strUpper (strTrim (pyStr cell)) then some false
      else none := rfl
  have h4 : ∀ (city : String) (r : RawRow),
      (normalizeRow city r).arrest_made = coerceBool r.arrest_made ∧
      (normalizeRow city r).citation_issued = coerceBool r.citation_issued ∧
      (normalizeRow city r).warning_issued = coerceBool r.warning_issued ∧
      (normalizeRow city r).contraband_found = coerceBool r.contraband_found ∧
      (normalizeRow city r).contraband_drugs = coerceBool r.contraband_drugs ∧
      (normalizeRow city r).contraband_weapons = coerceBool r.contraband_weapons ∧
      (normalizeRow city r).frisk_performed = coerceBool r.frisk_performed ∧
      (normalizeRow city r).search_conducted = coerceBool r.search_conducted ∧
      (normalizeRow city r).search_person = coerceBool r.search_person ∧
      (normalizeRow city r).search_vehicle = coerceBool r.search_vehicle :=
    fun _ _ => ⟨rfl, rfl, rfl, rfl, rfl, rfl, rfl, rfl, rfl, rfl⟩
  by_cases hT : strUpper (strTrim (pyStr cell)) = "TRUE"
  · have hv : coerceBool cell = some true := by rw [hb, if_pos hT.symm]
    exact ⟨by simp [hv, hT], by simp [hv, hT], by simp [hT], h4⟩
  · by_cases hF : strUpper (strTrim (pyStr cell)) = "FALSE"
    · have hv : coerceBool cell = some false := by
        rw [hb, if_neg (fun hh => hT hh.symm), if_pos hF.symm]
      exact ⟨by simp [hv, hF], by simp [hv, hF], by simp [hF], h4⟩
    · have hv : coerceBool cell = none := by
        rw [hb, if_neg (fun hh => hT hh.symm), if_neg (fun hh => hF hh.symm)]
      exact ⟨by simp [hv, hT], by simp [hv, hF], fun _ _ => hv, h4⟩

/-- Witness for C2: a lowercase spelled true token coerces to true and
the "NA" token coerces to the missing state. -/
theorem bool_coercion_tri_state_witness :
    coerceBool (some " true ") = some true ∧ coerceBool (some "NA") = none :=
  ⟨(bool_coercion_tri_state (some " true ")).1.mpr (by decide),
   (bool_coercion_tri_state (some "NA")).2.2.1 (by decide) (by decide)⟩

/-- C4: After normalization, `subject_race` lies in its closed
six-value vocabulary and `subject_sex` in its closed three-value
vocabulary; any input not matched by the trimmed lowercased lookup
tables, including the literal "nan" and the empty string, maps to
"unknown". -/
theorem categorical_closed_vocab (cell : Option String) :
    normRace cell ∈ (["white", "black", "hispanic", "asian/pacific islander",
      "other", "unknown"] : List String) ∧
    normSex cell ∈ (["male", "female", "unknown"] : List String) ∧
    (mapLookup race_map (strLower (strTrim (pyStr cell))) = none →
      normRace cell = "unknown") ∧
    (mapLookup sex_map (strLower (strTrim (pyStr cell))) = none →
      normSex cell = "unknown") ∧
    (∀ (city : String) (r : RawRow),
      (normalizeRow city r).subject_race = normRace r.subject_race ∧
      (normalizeRow city r).subject_sex = normSex r.subject_sex) ∧
    normRace none = "unknown" ∧ normRace (some "nan") = "unknown" ∧
    normRace (some "") = "unknown" ∧ normSex none = "unknown" ∧
    normSex (some "nan") = "unknown" ∧ normSex (some "") = "unknown" := by
  refine ⟨?_, ?_, fun h => by simp [normRace, h], fun h => by simp [normSex, h],
    fun city r => ⟨rfl, rfl⟩, by decide, by decide, by decide, by decide,
    by decide, by decide⟩
  · cases hv : mapLookup race_map (strLower (strTrim (pyStr cell))) with
    | none => simp [normRace, hv]
    | some v =>
      have hm := mapLookup_mem _ _ _ hv
      have hr : normRace cell = v := by simp [normRace, hv]
      rw [hr]
      simp only [race_map, List.map_cons, List.map_nil, List.mem_cons,
        List.not_mem_nil, or_false] at hm
      rcases hm with rfl | rfl | rfl | rfl | rfl | rfl | rfl | rfl | rfl | rfl <;> decide
  · cases hv : mapLookup sex_map (strLower (strTrim (pyStr cell))) with
    | none => simp [normSex, hv]
    | some v =>
      have hm := mapLookup_mem _ _ _ hv
      have hr : normSex cell = v := by simp [normSex, hv]
      rw [hr]
      simp only [sex_map, List.map_cons, List.map_nil, List.mem_cons,
        List.not_mem_nil, or_false] at hm
      rcases hm with rfl | rfl | rfl | rfl | rfl | rfl <;> decide

/-- Witness for C4: an unmapped free-text race or sex token normalizes
to "unknown". -/
theorem categorical_closed_vocab_witness :
    normRace (some "Zorp") = "unknown" ∧ normSex (some "Zorp") = "unknown" :=
  ⟨(categorical_closed_vocab (some "Zorp")).2.2.1 (by decide),
   (categorical_closed_vocab (some "Zorp")).2.2.2.1 (by decide)⟩

/-- C5: In every successful run, every record of the final output has an
`arrested` value of exactly 0 or 1; the value is an integer produced by
the nested `np.where`, never a missing value. -/
theorem arrested_binary_never_missing (inputs : List (String × List RawRow))
    (t : FinalTable) (h : runPipeline inputs = some t) :
    ∀ fr ∈ t.rows, fr.arrested = 0 ∨ fr.arrested = 1 := by
  have hrows : t.rows = (normRows inputs).map deriveRow := by
    simp only [runPipeline] at h
    split at h
    · split at h
      · rw [← Option.some.inj h]
      · cases h
    · cases h
  intro fr hfr
  rw [hrows, List.mem_map] at hfr
  obtain ⟨r, -, rfl⟩ := hfr
  show arrestedOf r = 0 ∨ arrestedOf r = 1
  unfold arrestedOf
  split_ifs <;> simp

/-- Witness for C5: the `inp8` run succeeds and its first derived row
has a binary `arrested` value. -/
theorem arrested_binary_never_missing_witness :
    runPipeline inp8 = some out8 ∧ (fr0.arrested = 0 ∨ fr0.arrested = 1) :=
  ⟨by decide,
   arrested_binary_never_missing inp8 out8 (by decide) fr0 (by decide)⟩

/-- C6: The `outcome_missing` flag is true iff the already-normalized
outcome equals one of the empty/NA-equivalent sentinels "nan", "na" or
the empty string; the explicit `isna` disjunct adds nothing on the
string-typed column. -/
theorem outcome_missing_iff_sentinel (cell : Option String) :
    (outcomeMissingOf (normOutcome cell) = true ↔
      normOutcome cell ∈ (["nan", "na", ""] : List String)) ∧
    (∀ r : CleanRow, (deriveRow r).outcome_missing = outcomeMissingOf r.outcome) := by
  constructor
  · simp [outcomeMissingOf, strIsNA]
  · intro r
    rfl

/-- C7: The temporal extractor is total: an unparsable or missing date
(resp. time) yields the missing marker, the derived year, month and
weekday name (resp. hour) stay missing rather than defaulting to 0, and
for every parsed time the derived hour is that time's hour, an integer
below 24. -/
theorem temporal_extraction_total (dcell tcell : Option String) :
    (parseDateCell dcell = none →
      (parseDateCell dcell).map DateT.year = none ∧
      (parseDateCell dcell).map DateT.month = none ∧
      (parseDateCell dcell).map dayNameOf = none) ∧
    (parseTimeCell tcell = none → hourFromTime (parseTimeCell tcell) = none) ∧
    (∀ t : TimeT, parseTimeCell tcell = some t →
      hourFromTime (parseTimeCell tcell) = some t.hour ∧ t.hour < 24) ∧
    (∀ (city : String) (r : RawRow),
      (normalizeRow city r).year = (parseDateCell r.date).map DateT.year ∧
      (normalizeRow city r).month = (parseDateCell r.date).map DateT.month ∧
      (normalizeRow city r).day_of_week = (parseDateCell r.date).map dayNameOf ∧
      (normalizeRow city r).hour = hourFromTime (parseTimeCell r.time)) := by
  refine ⟨fun h => ?_, fun h => ?_, fun t ht => ?_,
    fun city r => ⟨rfl, rfl, rfl, rfl⟩⟩
  · rw [h]
    exact ⟨rfl, rfl, rfl⟩
  · rw [h]
    decide
  · obtain ⟨s, -, hp⟩ := Option.bind_eq_some.mp ht
    obtain ⟨hb1, hb2, hb3⟩ := parseTimeHMS_bounds s t hp
    refine ⟨?_, hb1⟩
    rw [ht]
    show (parseTimeHMS (strOfTimeCell (some t))).map TimeT.hour = some t.hour
    rw [parseTimeHMS_roundtrip t hb1 hb2 hb3]
    rfl

/-- Witness for C7: an unparsable date yields a missing year and a
parsed `07:15:30` yields hour 7, below 24. -/
theorem temporal_extraction_total_witness :
    (parseDateCell (some "bogus")).map DateT.year = none ∧
    hourFromTime (parseTimeCell (some "07:15:30")) = some 7 ∧ 7 < 24 :=
  ⟨((temporal_extraction_total (some "bogus") (some "07:15:30")).1 (by decide)).1,
   ((temporal_extraction_total (some "bogus") (some "07:15:30")).2.2.1
      ⟨7, 15, 30⟩ (by decide)).1,
   ((temporal_extraction_total (some "bogus") (some "07:15:30")).2.2.1
      ⟨7, 15, 30⟩ (by decide)).2⟩

/-- C8: Every successful run's final table has exactly as many rows as
the input files have rows in total: the pipeline never filters, deletes
or adds rows, so only whole columns can be removed. -/
theorem row_count_invariant (inputs : List (String × List RawRow))
    (t : FinalTable) (h : runPipeline inputs = some t) :
    t.rows.length = (inputs.map (fun p => p.2.length)).sum := by
  have hrows : t.rows = (normRows inputs).map deriveRow := by
    simp only [runPipeline] at h
    split at h
    · split at h
      · rw [← Option.some.inj h]
      · cases h
    · cases h
  rw [hrows, List.length_map, normRows, List.length_map, loadCombine_length]

/-- Witness for C8: the three-row input `inp8` produces a three-row
final table. -/
theorem row_count_invariant_witness :
    runPipeline inp8 = some out8 ∧
    out8.rows.length = (inp8.map (fun p => p.2.length)).sum :=
  ⟨by decide, row_count_invariant inp8 out8 (by decide)⟩

/-- C10: When the coerced `arrest_made` column exceeds the drop
threshold it is removed before the indicator step, and the subsequent
`arrest_made` column lookup aborts the run instead of silently falling
back to the outcome-text rule. -/
theorem arrest_made_drop_aborts (inputs : List (String × List RawRow))
    (h : Col.arrest_made ∈ cols_to_drop (normRows inputs)) :
    runPipeline inputs = none := by
  have hnp : Col.arrest_made ∉ presentAfterDrop (normRows inputs) := by
    rw [mem_presentAfterDrop]
    intro hc
    exact hc.2 h
  simp only [runPipeline]
  by_cases h1 : Col.outcome ∈ presentAfterDrop (normRows inputs)
  · rw [if_pos h1, if_neg hnp]
  · rw [if_neg h1]

/-- Witness for C10: a one-row input with a missing `arrest_made` cell
drops the column and the run aborts. -/
theorem arrest_made_drop_aborts_witness :
    Col.arrest_made ∈ cols_to_drop (normRows inp10) ∧ runPipeline inp10 = none :=
  ⟨by decide, arrest_made_drop_aborts inp10 (by decide)⟩

/-- C9: After categorical normalization the four text columns hold
non-null strings for every record, so their missingness is zero, they
can never exceed the drop threshold and are present at the drop step,
and the explicit `isna` disjunct of `outcome_missing` is unreachable. -/
theorem text_columns_never_missing :
    (∀ (city : String) (r : RawRow),
      isNullAt Col.subject_race (normalizeRow city r) = false ∧
      isNullAt Col.subject_sex (normalizeRow city r) = false ∧
      isNullAt Col.reason_for_stop (normalizeRow city r) = false ∧
      isNullAt Col.outcome (normalizeRow city r) = false) ∧
    (∀ rows : List CleanRow,
      dropCondition rows Col.subject_race = false ∧
      dropCondition rows Col.subject_sex = false ∧
      dropCondition rows Col.reason_for_stop = false ∧
      dropCondition rows Col.outcome = false ∧
      Col.subject_race ∈ presentAfterDrop rows ∧
      Col.subject_sex ∈ presentAfterDrop rows ∧
      Col.reason_for_stop ∈ presentAfterDrop rows ∧
      Col.outcome ∈ presentAfterDrop rows) ∧
    (∀ o : String, strIsNA o = false) ∧
    (∀ r : CleanRow, (deriveRow r).outcome_missing =
      decide (r.outcome ∈ (["nan", "na", ""] : List String))) := by
  refine ⟨fun city r => ⟨rfl, rfl, rfl, rfl⟩, fun rows => ?_, fun o => rfl,
    fun r => ?_⟩
  · have h1 : dropCondition rows Col.subject_race = false :=
      dropCondition_false_of_no_miss rows _ (fun r _ => rfl)
    have h2 : dropCondition rows Col.subject_sex = false :=
      dropCondition_false_of_no_miss rows _ (fun r _ => rfl)
    have h3 : dropCondition rows Col.reason_for_stop = false :=
      dropCondition_false_of_no_miss rows _ (fun r _ => rfl)
    have h4 : dropCondition rows Col.outcome = false :=
      dropCondition_false_of_no_miss rows _ (fun r _ => rfl)
    have hmem : ∀ c : Col, c ∈ analysisCols → dropCondition rows c = false →
        c ∈ presentAfterDrop rows := by
      intro c hca hcd
      rw [mem_presentAfterDrop]
      refine ⟨hca, ?_⟩
      rw [mem_cols_to_drop]
      rintro ⟨-, hdt⟩
      rw [hcd] at hdt
      cases hdt
    exact ⟨h1, h2, h3, h4, hmem _ (by decide) h1, hmem _ (by decide) h2,
      hmem _ (by decide) h3, hmem _ (by decide) h4⟩
  · simp [deriveRow, outcomeMissingOf, strIsNA]

theorem normRows_inp3 :
    normRows inp3 = List.replicate 5001 cA3 ++ List.replicate 5000 cB3 := by
  have h0 : loadCombine inp3 = rowsNA3.map (fun r => ("Charlotte", r)) := by
    simp [loadCombine, inp3]
  rw [normRows, h0, List.map_map, rowsNA3, List.map_append, List.map_replicate,
    List.map_replicate]
  rfl

theorem missCount_inp3 (c : Col) :
    missCount (normRows inp3) c =
      (if isNullAt c cA3 then 5001 else 0) +
        (if isNullAt c cB3 then 5000 else 0) := by
  rw [missCount, normRows_inp3, List.countP_append, countP_replicate_eq,
    countP_replicate_eq]

theorem length_inp3 : (normRows inp3).length = 10001 := by
  rw [normRows_inp3, List.length_append, List.length_replicate,
    List.length_replicate]

theorem nullA3 : ∀ c : Col, isNullAt c cA3 = decide (c = Col.subject_age) := by decide

theorem nullB3 : ∀ c : Col, isNullAt c cB3 = false := by decide

theorem drop3 : cols_to_drop (normRows inp3) = [] := by
  rw [cols_to_drop, List.filter_eq_nil_iff]
  intro c hc
  simp only [Bool.not_eq_true]
  by_cases hca : c = Col.subject_age
  · subst hca
    have hmc : missCount (normRows inp3) Col.subject_age = 5001 := by
      rw [missCount_inp3]
      simp [nullA3, nullB3]
    rw [dropCondition, hmc, length_inp3]
    decide
  · have hmc : missCount (normRows inp3) c = 0 := by
      rw [missCount_inp3]
      simp [nullA3, nullB3, hca]
    rw [dropCondition, hmc, length_inp3]
    simp [rheN_zero 10001 (by omega)]

theorem present3 : presentAfterDrop (normRows inp3) = analysisCols := by
  rw [presentAfterDrop, drop3]
  apply List.filter_eq_self.mpr
  intro a _
  simp

theorem run3 : runPipeline inp3 =
    some ⟨keep_cols.filter (fun c => decide
        (c ∈ analysisCols ++ [Col.outcome_missing, Col.arrested])),
      (normRows inp3).map deriveRow⟩ := by
  simp only [runPipeline, present3]
  rw [if_pos (by decide), if_pos (by decide)]

/-- Counterexample to C3 as stated: in the `inp3` run the `subject_age`
column is missing in 5001 of 10001 rows, a missing fraction strictly
above one half, yet the script's rounded percentage is exactly 50.00, so
the column is not dropped and appears in the final output. -/
theorem over50_kept_counterexample :
    2 * missCount (normRows inp3) Col.subject_age > (normRows inp3).length ∧
    (runPipeline inp3).isSome = true ∧
    Col.subject_age ∈ ((runPipeline inp3).map FinalTable.cols).getD [] := by
  have hmc : missCount (normRows inp3) Col.subject_age = 5001 := by
    rw [missCount_inp3]
    simp [nullA3, nullB3]
  refine ⟨?_, ?_, ?_⟩
  · rw [hmc, length_inp3]
    omega
  · rw [run3]
    rfl
  · rw [run3]
    decide

/-- C3 (amended): a column is absent from the final output whenever its
overall missing percentage as the script computes it — the missing
fraction rounded half-to-even to four decimal places and expressed as a
percentage — exceeds 50, i.e. whenever the half-even rounding of
10000 times the missing fraction exceeds 5000.  (As literally stated
the claim fails on fractions in the open window just above one half,
such as 5001/10001, which exceed 50 percent but round to exactly
50.00.) -/
theorem over50_rounded_column_dropped (inputs : List (String × List RawRow))
    (t : FinalTable) (c : Col) (h : runPipeline inputs = some t)
    (hm : dropCondition (normRows inputs) c = true) : c ∉ t.cols := by
  have hcols : t.cols = keep_cols.filter (fun x => decide
      (x ∈ presentAfterDrop (normRows inputs) ++
        [Col.outcome_missing, Col.arrested])) := by
    simp only [runPipeline] at h
    split at h
    · split at h
      · rw [← Option.some.inj h]
      · cases h
    · cases h
  rw [hcols]
  intro hmem
  rw [List.mem_filter] at hmem
  have hin := of_decide_eq_true hmem.2
  rw [List.mem_append] at hin
  rcases hin with hin | hin
  · rw [mem_presentAfterDrop] at hin
    exact hin.2 (by rw [mem_cols_to_drop]; exact ⟨hin.1, hm⟩)
  · have hfalse : dropCondition (normRows inputs) c = false := by
      apply dropCondition_false_of_no_miss
      intro r _
      simp only [List.mem_cons, List.not_mem_nil, or_false] at hin
      rcases hin with rfl | rfl <;> rfl
    rw [hfalse] at hm
    cases hm

/-- Witness for the amended C3: in the `inpW3` run the `subject_age`
column is 100 percent missing, its rounded percentage exceeds 50, and it
is absent from the final output. -/
theorem over50_rounded_column_dropped_witness :
    runPipeline inpW3 = some outW3 ∧
    dropCondition (normRows inpW3) Col.subject_age = true ∧
    Col.subject_age ∉ outW3.cols :=
  ⟨by decide, by decide,
   over50_rounded_column_dropped inpW3 outW3 Col.subject_age
     (by decide) (by decide)⟩
